import Mathlib

/-!
Shallow embedding of `clickhouse_optimizer/optimizer.py` (class
`ClickHouseOptimizer`) and proofs about the claims of its specification.

Modelling conventions:
* A row of the `system.parts` ClickHouse table is a `PartRow`; a row of
  `system.merges` is a `MergeRow`.  The SQL queries issued by the Python code
  are translated into Lean list operations over these row lists.
* Time values (`modification_time`, `now()`, elapsed wait seconds) are `Int`
  seconds.
* The checkpoint file is a `FileState`: absent, unreadable (`OSError`),
  undecodable (`UnicodeDecodeError` on stray binary data), or a list of text
  lines (without trailing newline).  `Option FileState` is `none` when no
  checkpoint file is configured (`self.checkpoint_file is None`).
* Exceptions that the Python code catches are modelled as explicit values;
  exceptions that escape a function are modelled as explicit outcome
  constructors (`WaitOutcome.timedOut` for `TimeoutError`).
* The polling loop of `wait_for_merges_completion` consumes a trace: one
  entry per poll, holding the `system.merges` contents seen by that poll and
  the value `time.time() - start_time` observed right after it.
-/

namespace ClickhouseOptimizer

/-- A row of ClickHouse's `system.parts` table (the columns the code uses). -/
structure PartRow where
  database : String
  table : String
  partition_id : String
  partition : String
  active : Nat
  modification_time : Int
deriving DecidableEq, Repr

/-- A row of ClickHouse's `system.merges` table (the columns the code uses). -/
structure MergeRow where
  database : String
  table : String
  partition_id : String
  partition : String
  progress : Int
  elapsed : Int
deriving DecidableEq, Repr

/-- The dict built by `check_active_merges` for one result row. -/
structure MergeInfo where
  partition_id : String
  partition : String
  progress : Int
  elapsed : Int
deriving DecidableEq, Repr

/-- The dict comprehension body of `check_active_merges` (optimizer.py 125-133). -/
def mergeInfoOfRow (r : MergeRow) : MergeInfo :=
  ⟨r.partition_id, r.partition, r.progress, r.elapsed⟩

/-- Python `check_active_merges` (optimizer.py 105-133): `SELECT partition_id,
partition, progress, elapsed FROM system.merges WHERE table = %(table_name)s`
plus, when `partition_id` is non-empty (truthy), `AND partition_id =
%(partition_id)s`.  Note the query has no condition on `database`. -/
def check_active_merges (merges : List MergeRow) (table_name : String)
    (partition_id : String) : List MergeInfo :=
  (merges.filter fun r =>
      r.table == table_name
        && (partition_id == "" || r.partition_id == partition_id)).map
    mergeInfoOfRow

/-- The `INTERVAL 30 DAY` window in seconds. -/
def thirtyDays : Int := 30 * 86400

/-- Python `get_recent_single_part_partitions` (optimizer.py 47-72): groups the
active parts of the configured table *and database* by partition, keeps the
groups with exactly one part whose `modification_time` is within the last 30
days, and returns the set of their `partition_id`s (as a duplicate-free
list).  With `HAVING part_count = 1` the group is a single row, so
`max(modification_time)` is that row's `modification_time`. -/
def get_recent_single_part_partitions (parts : List PartRow)
    (table_name database : String) (now : Int) : List String :=
  let rows := parts.filter fun r =>
    r.active == 1 && r.table == table_name && r.database == database
  ((rows.map fun r => r.partition_id).dedup).filter fun p =>
    let grp := rows.filter fun r => r.partition_id == p
    grp.length == 1
      && grp.any fun r => decide (r.modification_time > now - thirtyDays)

/-- The dict `{'partition_id': row[0], 'partition': row[1]}` built by
`get_table_partitions`. -/
structure PartitionInfo where
  partition_id : String
  partition : String
deriving DecidableEq, Repr

/-- The `ORDER BY partition_id` comparison. -/
def partitionLE (a b : PartitionInfo) : Prop :=
  a.partition_id ≤ b.partition_id

instance : DecidableRel partitionLE := fun a b =>
  inferInstanceAs (Decidable (a.partition_id ≤ b.partition_id))

instance : IsTotal PartitionInfo partitionLE :=
  ⟨fun a b => le_total a.partition_id b.partition_id⟩

instance : IsTrans PartitionInfo partitionLE :=
  ⟨fun _ _ _ hab hbc => le_trans hab hbc⟩

/-- The query of `get_table_partitions` (optimizer.py 76-87):
`SELECT DISTINCT partition_id, partition FROM system.parts WHERE table =
%(table_name)s AND active = 1 ORDER BY partition_id`.  Note the query has no
condition on `database`.  `ORDER BY partition_id` is modelled as a stable
sort by `partition_id`. -/
def selectDistinctPartitions (parts : List PartRow) (table_name : String) :
    List PartitionInfo :=
  (((parts.filter fun r => r.table == table_name && r.active == 1).map
      fun r => PartitionInfo.mk r.partition_id r.partition).dedup).insertionSort
    partitionLE

/-- Python `get_table_partitions` (optimizer.py 74-103): the distinct active
partitions of the table, minus the recent single-part exclusions. -/
def get_table_partitions (parts : List PartRow) (table_name database : String)
    (now : Int) : List PartitionInfo :=
  let result := selectDistinctPartitions parts table_name
  let excluded := get_recent_single_part_partitions parts table_name database now
  result.filter fun p => !(excluded.contains p.partition_id)

/-- State of the checkpoint file on disk. -/
inductive FileState where
  | absent
  | ioError
  | undecodable
  | content (lines : List String)
deriving DecidableEq, Repr

/-- Result of `load_checkpoint`: the `completed` set (as a list; only
membership matters) and whether a warning was logged. -/
structure LoadResult where
  completed : List String
  warned : Bool
deriving DecidableEq, Repr

/-- The whitespace set of Python's `str.strip()` (ASCII part; the checkpoint
file is opened with `encoding='ascii'`). -/
def pyIsSpace (c : Char) : Bool :=
  c == ' ' || c == '\t' || c == '\n' || c == '\r' || c == '\x0b' || c == '\x0c'

/-- Python's `line.strip()`: drop leading and trailing whitespace. -/
def pyStrip (s : String) : String :=
  ⟨(((s.data.dropWhile pyIsSpace).reverse).dropWhile pyIsSpace).reverse⟩

/-- Python's `line.startswith('#')`. -/
def startsWithHash (s : String) : Bool :=
  s.data.head? == some '#'

/-- The line loop of `load_checkpoint` (optimizer.py 236-239): strip each
line, skip empty lines and lines starting with `#`, and collect the rest
verbatim. -/
def parse_checkpoint (lines : List String) : List String :=
  (lines.map pyStrip).filter fun line =>
    line != "" && !(startsWithHash line)

/-- Python `load_checkpoint` (optimizer.py 228-252).  `none` models
`self.checkpoint_file is None`; `.absent` models `not
self.checkpoint_file.exists()`; `.ioError` and `.undecodable` model the
caught `OSError` / `UnicodeDecodeError`, which return the empty set after
logging a warning. -/
def load_checkpoint : Option FileState → LoadResult
  | none => ⟨[], false⟩
  | some .absent => ⟨[], false⟩
  | some .ioError => ⟨[], true⟩
  | some .undecodable => ⟨[], true⟩
  | some (.content lines) => ⟨parse_checkpoint lines, false⟩

/-- The line appended by `save_partition_to_checkpoint` (optimizer.py 268),
without its trailing newline: `f'{partition_id}  # completed at {timestamp}'`. -/
def checkpointLine (partition_id timestamp : String) : String :=
  partition_id ++ "  # completed at " ++ timestamp

/-- Result of `save_partition_to_checkpoint`: the new file state and whether
a warning was logged. -/
structure SaveResult where
  file : Option FileState
  warned : Bool
deriving DecidableEq, Repr

/-- Python `save_partition_to_checkpoint` (optimizer.py 254-276): no-op when no
checkpoint file is configured; otherwise append one line.  Appending to an
absent file creates it; an `OSError` is caught and logged.  Appending ASCII
text to a file holding undecodable bytes leaves it undecodable for a later
read. -/
def save_partition_to_checkpoint :
    Option FileState → String → String → SaveResult
  | none, _, _ => ⟨none, false⟩
  | some .absent, p, ts => ⟨some (.content [checkpointLine p ts]), false⟩
  | some .ioError, _, _ => ⟨some .ioError, true⟩
  | some .undecodable, _, _ => ⟨some .undecodable, false⟩
  | some (.content lines), p, ts =>
      ⟨some (.content (lines ++ [checkpointLine p ts])), false⟩

/-- The errors caught around `client.execute` of the OPTIMIZE command
(optimizer.py 201): `clickhouse_driver.errors.Error` or `OSError`. -/
inductive CmdError where
  | driverError
  | osError
deriving DecidableEq, Repr

/-- How `wait_for_merges_completion` terminates: the poll loop `break`s when
no active merge is found, raises `TimeoutError` when the elapsed wait exceeds
`optimize_timeout`, or is still pending when the supplied trace ends. -/
inductive WaitOutcome where
  | completed
  | timedOut
  | pending
deriving DecidableEq, Repr

/-- Python `wait_for_merges_completion` (optimizer.py 135-177) over a trace of
polls.  Each trace entry carries the `system.merges` contents seen by
`check_active_merges` at that poll and the value `time.time() - start_time`
computed right after the query.  Per iteration the code first breaks if the
query returned no rows, then raises `TimeoutError` if the elapsed wait
exceeds `optimize_timeout`, else sleeps and re-polls.  Returns the outcome
together with the number of `check_active_merges` queries performed. -/
def wait_for_merges_completion (table_name partition_id : String)
    (optimize_timeout : Int) :
    List (List MergeRow × Int) → WaitOutcome × Nat
  | [] => (.pending, 0)
  | (merges, elapsed) :: rest =>
    if (check_active_merges merges table_name partition_id).isEmpty then
      (.completed, 1)
    else if elapsed > optimize_timeout then
      (.timedOut, 1)
    else
      let r := wait_for_merges_completion table_name partition_id
        optimize_timeout rest
      (r.1, r.2 + 1)

/-- Observable effects of one `optimize_partition` call: how many OPTIMIZE
commands were passed to `client.execute`, how many merge-state polling
queries ran, whether the command-error warning was logged, and how the call
ended. -/
structure PartitionEffects where
  executes : Nat
  polls : Nat
  warned : Bool
  outcome : WaitOutcome
deriving DecidableEq, Repr

/-- Python `optimize_partition` (optimizer.py 179-226).  In dry-run mode it only
logs the intended command: no `client.execute`, no wait.  Otherwise it
executes the OPTIMIZE command — a driver/OS error (`cmdErr = some _`) is
caught and logged as a warning — and then unconditionally enters
`wait_for_merges_completion` for the partition. -/
def optimize_partition (dry_run : Bool) (table_name partition_id : String)
    (optimize_timeout : Int) (cmdErr : Option CmdError)
    (trace : List (List MergeRow × Int)) : PartitionEffects :=
  if dry_run then
    { executes := 0, polls := 0, warned := false, outcome := .completed }
  else
    let w := wait_for_merges_completion table_name partition_id
      optimize_timeout trace
    { executes := 1, polls := w.2, warned := cmdErr.isSome, outcome := w.1 }

/-- The checkpoint filter of `optimize_table` (optimizer.py 289-295): when
the loaded `completed` set is non-empty (truthy), keep only the partitions
whose `partition_id` it does not contain. -/
def optimize_table_worklist (parts : List PartRow) (table_name database : String)
    (now : Int) (completed : List String) : List PartitionInfo :=
  let partitions := get_table_partitions parts table_name database now
  if completed.isEmpty then partitions
  else partitions.filter fun p => !(completed.contains p.partition_id)

/-- Result of the per-partition loop of `optimize_table` (optimizer.py
327-374): partitions attempted in order, `client.execute` OPTIMIZE commands,
merge polls, final checkpoint file, and — when `optimize_partition` raised —
the partition and outcome at which the loop re-raised and stopped. -/
structure LoopResult where
  visited : List String
  executes : Nat
  polls : Nat
  file : Option FileState
  failure : Option (String × WaitOutcome)
deriving DecidableEq, Repr

/-- The `for` loop of `optimize_table` (optimizer.py 327-374): run
`optimize_partition` on each partition in order; on success append to the
checkpoint and continue; on an exception log and re-raise, which aborts the
loop.  `cmdErr` and `traces` give each partition's command-error and poll
trace. -/
def run_partitions (dry_run : Bool) (table_name : String)
    (optimize_timeout : Int) (cmdErr : String → Option CmdError)
    (traces : String → List (List MergeRow × Int)) (ts : String)
    (file : Option FileState) : List PartitionInfo → LoopResult
  | [] => ⟨[], 0, 0, file, none⟩
  | p :: rest =>
    let eff := optimize_partition dry_run table_name p.partition_id
      optimize_timeout (cmdErr p.partition_id) (traces p.partition_id)
    if eff.outcome = WaitOutcome.completed then
      let saved := save_partition_to_checkpoint file p.partition_id ts
      let r := run_partitions dry_run table_name optimize_timeout cmdErr
        traces ts saved.file rest
      ⟨p.partition_id :: r.visited, eff.executes + r.executes,
        eff.polls + r.polls, r.file, r.failure⟩
    else
      ⟨[p.partition_id], eff.executes, eff.polls, file,
        some (p.partition_id, eff.outcome)⟩

/-- What `optimize_table` reports at its exit points: the early-return
warnings (optimizer.py 282-286, 301-303), the final "Optimized/Would
optimize N partitions" log (380-387), or the exception that propagated out
of the loop. -/
inductive RunReport where
  | noPartitions
  | allCompleted
  | finished (count : Nat) (dry : Bool)
  | aborted (partition_id : String) (outcome : WaitOutcome)
deriving DecidableEq, Repr

/-- Result of one `optimize_table` invocation. -/
structure RunResult where
  visited : List String
  executes : Nat
  polls : Nat
  file : Option FileState
  report : RunReport
deriving DecidableEq, Repr

/-- Python `optimize_table` (optimizer.py 278-387): discover partitions; if none,
warn and return; filter through the loaded checkpoint; if nothing remains,
report "All partitions already completed"; otherwise run the loop and report
"Optimized/Would optimize len(partitions) partitions" (or the propagated
exception). -/
def optimize_table (parts : List PartRow) (dry_run : Bool)
    (table_name database : String) (now : Int) (optimize_timeout : Int)
    (cmdErr : String → Option CmdError)
    (traces : String → List (List MergeRow × Int)) (ts : String)
    (file : Option FileState) : RunResult :=
  let partitions := get_table_partitions parts table_name database now
  if partitions.isEmpty then ⟨[], 0, 0, file, .noPartitions⟩
  else
    let work := optimize_table_worklist parts table_name database now
      (load_checkpoint file).completed
    if work.isEmpty then ⟨[], 0, 0, file, .allCompleted⟩
    else
      let r := run_partitions dry_run table_name optimize_timeout cmdErr
        traces ts file work
      match r.failure with
      | some (pid, o) => ⟨r.visited, r.executes, r.polls, r.file, .aborted pid o⟩
      | none =>
          ⟨r.visited, r.executes, r.polls, r.file,
            .finished work.length dry_run⟩

/-! ## Helper lemmas -/

/-- Membership in the `SELECT DISTINCT ... ORDER BY partition_id` result. -/
lemma mem_selectDistinctPartitions (parts : List PartRow) (t : String)
    (x : PartitionInfo) :
    x ∈ selectDistinctPartitions parts t ↔
      ∃ r ∈ parts, r.table = t ∧ r.active = 1
        ∧ PartitionInfo.mk r.partition_id r.partition = x := by
  simp only [selectDistinctPartitions, List.mem_insertionSort, List.mem_dedup,
    List.mem_map, List.mem_filter, Bool.and_eq_true, beq_iff_eq]
  constructor
  · rintro ⟨r, ⟨hr, h1, h2⟩, hx⟩
    exact ⟨r, hr, h1, h2, hx⟩
  · rintro ⟨r, hr, h1, h2, hx⟩
    exact ⟨r, ⟨hr, h1, h2⟩, hx⟩

/-- The select result is sorted by `partition_id`. -/
lemma sorted_selectDistinctPartitions (parts : List PartRow) (t : String) :
    (selectDistinctPartitions parts t).Pairwise partitionLE :=
  List.sorted_insertionSort partitionLE _

/-- Membership in `get_table_partitions`. -/
lemma mem_get_table_partitions (parts : List PartRow) (t d : String) (now : Int)
    (x : PartitionInfo) :
    x ∈ get_table_partitions parts t d now ↔
      x ∈ selectDistinctPartitions parts t
        ∧ x.partition_id ∉ get_recent_single_part_partitions parts t d now := by
  simp [get_table_partitions, List.mem_filter]

/-- Membership in the worklist after the checkpoint filter. -/
lemma mem_optimize_table_worklist (parts : List PartRow) (t d : String)
    (now : Int) (C : List String) (x : PartitionInfo) :
    x ∈ optimize_table_worklist parts t d now C ↔
      x ∈ get_table_partitions parts t d now ∧ x.partition_id ∉ C := by
  unfold optimize_table_worklist
  by_cases hC : C.isEmpty
  · have : C = [] := List.isEmpty_iff.mp hC
    simp [hC, this]
  · simp [hC, List.mem_filter]

/-- The checkpoint-file state after appending completion records for `ids`
in order. -/
def append_checkpoint_lines (file : Option FileState) (ids : List String)
    (ts : String) : Option FileState :=
  ids.foldl (fun f pid => (save_partition_to_checkpoint f pid ts).file) file

lemma append_checkpoint_lines_content (ts : String) :
    ∀ (ids : List String) (ls : List String),
      append_checkpoint_lines (some (.content ls)) ids ts
        = some (.content (ls ++ ids.map fun pid => checkpointLine pid ts))
  | [], ls => by simp [append_checkpoint_lines]
  | pid :: ids, ls => by
    have ih := append_checkpoint_lines_content ts ids (ls ++ [checkpointLine pid ts])
    simp only [append_checkpoint_lines, List.foldl_cons,
      save_partition_to_checkpoint] at ih ⊢
    rw [ih]
    simp

/-- The per-partition loop when every partition's wait completes: every
partition is visited in order, each is appended to the checkpoint, and no
exception propagates. -/
lemma run_partitions_all_completed (dry : Bool) (t : String) (timeout : Int)
    (cmdErr : String → Option CmdError)
    (traces : String → List (List MergeRow × Int)) (ts : String) :
    ∀ (W : List PartitionInfo) (file : Option FileState),
      (∀ q ∈ W, (optimize_partition dry t q.partition_id timeout
          (cmdErr q.partition_id) (traces q.partition_id)).outcome
        = WaitOutcome.completed) →
      (run_partitions dry t timeout cmdErr traces ts file W).visited
          = W.map (fun p => p.partition_id)
        ∧ (run_partitions dry t timeout cmdErr traces ts file W).failure = none
        ∧ (run_partitions dry t timeout cmdErr traces ts file W).file
          = append_checkpoint_lines file (W.map fun p => p.partition_id) ts
  | [], file, _ => by simp [run_partitions, append_checkpoint_lines]
  | p :: W, file, h => by
    have hp := h p (List.mem_cons_self p W)
    have ih := run_partitions_all_completed dry t timeout cmdErr traces ts W
      (save_partition_to_checkpoint file p.partition_id ts).file
      (fun q hq => h q (List.mem_cons_of_mem p hq))
    simp only [run_partitions, hp, if_pos rfl]
    exact ⟨by simp [ih.1], ih.2.1, by simp [ih.2.2, append_checkpoint_lines]⟩

/-- In dry-run mode the loop executes no command, polls nothing, visits every
partition and still appends each to the checkpoint. -/
lemma run_partitions_dry (t : String) (timeout : Int)
    (cmdErr : String → Option CmdError)
    (traces : String → List (List MergeRow × Int)) (ts : String) :
    ∀ (W : List PartitionInfo) (file : Option FileState),
      run_partitions true t timeout cmdErr traces ts file W
        = ⟨W.map (fun p => p.partition_id), 0, 0,
            append_checkpoint_lines file (W.map fun p => p.partition_id) ts,
            none⟩
  | [], file => by simp [run_partitions, append_checkpoint_lines]
  | p :: W, file => by
    have ih := run_partitions_dry t timeout cmdErr traces ts W
      (save_partition_to_checkpoint file p.partition_id ts).file
    simp [run_partitions, optimize_partition, ih, append_checkpoint_lines]

/-- A non-empty worklist forces a non-empty catalog result. -/
lemma get_table_partitions_ne_nil_of_worklist (parts : List PartRow)
    (t d : String) (now : Int) (C : List String)
    (h : optimize_table_worklist parts t d now C ≠ []) :
    (get_table_partitions parts t d now).isEmpty = false := by
  rw [List.isEmpty_eq_false]
  intro hnil
  apply h
  unfold optimize_table_worklist
  rw [hnil]
  simp

/-- When the worklist is non-empty, `optimize_table` runs the per-partition
loop on it and packages the loop's result. -/
lemma optimize_table_eq_run (parts : List PartRow) (dry : Bool)
    (t d : String) (now timeout : Int) (cmdErr : String → Option CmdError)
    (traces : String → List (List MergeRow × Int)) (ts : String)
    (file : Option FileState)
    (h : optimize_table_worklist parts t d now
        (load_checkpoint file).completed ≠ []) :
    optimize_table parts dry t d now timeout cmdErr traces ts file
      = (let W := optimize_table_worklist parts t d now
            (load_checkpoint file).completed
         let r := run_partitions dry t timeout cmdErr traces ts file W
         match r.failure with
         | some (pid, o) => ⟨r.visited, r.executes, r.polls, r.file,
             .aborted pid o⟩
         | none => ⟨r.visited, r.executes, r.polls, r.file,
             .finished W.length dry⟩) := by
  have h1 := get_table_partitions_ne_nil_of_worklist parts t d now
    (load_checkpoint file).completed h
  have h2 : (optimize_table_worklist parts t d now
      (load_checkpoint file).completed).isEmpty = false :=
    List.isEmpty_eq_false.mpr h
  unfold optimize_table
  simp only [h1, h2, Bool.false_eq_true, if_false]

/-! ## Claims -/

/-- C1: the spec claims that after `save_partition_to_checkpoint(p)` the set
returned by `load_checkpoint()` contains `p`.  The code fails this: the
writer appends `"<p>  # completed at <ts>"`, and the loader keeps the whole
stripped line (it only skips lines *starting* with `#`), so the loaded set
contains the commented line, never `p` itself.  This theorem evaluates the
code at the failing input: partition `"2024-01"` saved to an empty
checkpoint file. -/
theorem C1_checkpoint_roundtrip_fails_on_code :
    (load_checkpoint (save_partition_to_checkpoint
        (some (.content [])) "2024-01" "2026-01-01 00:00:00").file).completed
      = ["2024-01  # completed at 2026-01-01 00:00:00"]
    ∧ "2024-01" ∉ (load_checkpoint (save_partition_to_checkpoint
        (some (.content [])) "2024-01" "2026-01-01 00:00:00").file).completed := by
  decide

/-- C2 counterexample: `check_active_merges` does not filter on the
configured database at all (the query is `WHERE table = %(table_name)s`
only), so a merge row for a same-named table in database `"staging"` is
included even when the configured database is `"production"`. -/
theorem C2_database_not_checked_counterexample :
    check_active_merges [⟨"staging", "events", "p1", "2024-01", 50, 10⟩]
        "events" "" = [⟨"p1", "2024-01", 50, 10⟩]
    ∧ ("staging" : String) ≠ "production" := by
  decide

/-- C2 amended: a result row of the merge-state query is included iff its
table exactly matches the configured table (the database is not restricted)
and, when a non-empty `partition_id` argument is given, its `partition_id`
exactly equals that argument. -/
theorem C2_merge_filter_table_and_partition (merges : List MergeRow)
    (t pid : String) (i : MergeInfo) :
    i ∈ check_active_merges merges t pid ↔
      ∃ r ∈ merges, r.table = t ∧ (pid = "" ∨ r.partition_id = pid)
        ∧ mergeInfoOfRow r = i := by
  simp only [check_active_merges, List.mem_map, List.mem_filter,
    Bool.and_eq_true, Bool.or_eq_true, beq_iff_eq]
  constructor
  · rintro ⟨r, ⟨hr, h1, h2⟩, hx⟩
    exact ⟨r, hr, h1, h2, hx⟩
  · rintro ⟨r, hr, h1, h2, hx⟩
    exact ⟨r, ⟨hr, h1, h2⟩, hx⟩

/-- C6: `load_checkpoint` never raises.  A file with undecodable (stray
binary) contents or an I/O error yields the empty set and logs a warning; a
missing file or an unconfigured checkpoint yields the empty set without a
warning; readable contents are parsed line by line. -/
theorem C6_load_checkpoint_never_raises :
    load_checkpoint (some .undecodable) = ⟨[], true⟩
    ∧ load_checkpoint (some .ioError) = ⟨[], true⟩
    ∧ load_checkpoint (some .absent) = ⟨[], false⟩
    ∧ load_checkpoint none = ⟨[], false⟩
    ∧ ∀ lines, load_checkpoint (some (.content lines)) =
        ⟨parse_checkpoint lines, false⟩ :=
  ⟨rfl, rfl, rfl, rfl, fun _ => rfl⟩

/-- C7: a driver/OS error while issuing the OPTIMIZE command is swallowed:
`optimize_partition` logs a warning and proceeds to the wait-for-merge
polling phase with exactly the effects and outcome of the success case. -/
theorem C7_command_error_swallowed (t pid : String) (timeout : Int)
    (e : CmdError) (trace : List (List MergeRow × Int)) :
    optimize_partition false t pid timeout (some e) trace
      = { optimize_partition false t pid timeout none trace with
          warned := true }
    ∧ (optimize_partition false t pid timeout (some e) trace).polls
      = (wait_for_merges_completion t pid timeout trace).2 :=
  ⟨rfl, rfl⟩

/-- C3: for every catalog state and checkpoint set `C`, the worklist of the
orchestrator is exactly the discovered partition set minus the
recently-single-part exclusions minus `C` (compared by `partition_id`), it is
ascending in `partition_id`, and — when every wait completes — the
orchestrator's loop visits exactly that list in that order. -/
theorem C3_worklist_exact_and_ordered (parts : List PartRow) (t d : String)
    (now : Int) (C : List String) (timeout : Int)
    (cmdErr : String → Option CmdError)
    (traces : String → List (List MergeRow × Int)) (ts : String)
    (file : Option FileState)
    (hdone : ∀ pid, (wait_for_merges_completion t pid timeout
        (traces pid)).1 = WaitOutcome.completed) :
    (∀ x, x ∈ optimize_table_worklist parts t d now C ↔
        x ∈ selectDistinctPartitions parts t
          ∧ x.partition_id ∉ get_recent_single_part_partitions parts t d now
          ∧ x.partition_id ∉ C)
    ∧ (optimize_table_worklist parts t d now C).Pairwise partitionLE
    ∧ (run_partitions false t timeout cmdErr traces ts file
          (optimize_table_worklist parts t d now C)).visited
        = (optimize_table_worklist parts t d now C).map
            fun p => p.partition_id := by
  refine ⟨fun x => ?_, ?_, ?_⟩
  · rw [mem_optimize_table_worklist, mem_get_table_partitions, and_assoc]
  · have hsorted := sorted_selectDistinctPartitions parts t
    unfold optimize_table_worklist get_table_partitions
    by_cases hC : C.isEmpty <;> simp [hC, List.Pairwise.filter, hsorted]
  · exact (run_partitions_all_completed false t timeout cmdErr traces ts _ file
      (fun q _ => by simp [optimize_partition, hdone q.partition_id])).1

/-- Witness for C3 at a concrete catalog of three partitions with
`"2024-01"` checkpointed: the loop visits exactly `["2024-02", "2024-03"]`
in order. -/
theorem C3_worklist_exact_and_ordered_witness :
    (run_partitions false "events" 43200 (fun _ => none) (fun _ => [([], 0)])
        "TS" (some (.content []))
        (optimize_table_worklist
          [⟨"db", "events", "2024-01", "a", 1, 0⟩,
           ⟨"db", "events", "2024-02", "b", 1, 0⟩,
           ⟨"db", "events", "2024-03", "c", 1, 0⟩]
          "events" "db" (30 * 86400 + 1) ["2024-01"])).visited
      = (optimize_table_worklist
          [⟨"db", "events", "2024-01", "a", 1, 0⟩,
           ⟨"db", "events", "2024-02", "b", 1, 0⟩,
           ⟨"db", "events", "2024-03", "c", 1, 0⟩]
          "events" "db" (30 * 86400 + 1) ["2024-01"]).map
          (fun p => p.partition_id) :=
  (C3_worklist_exact_and_ordered
    [⟨"db", "events", "2024-01", "a", 1, 0⟩,
     ⟨"db", "events", "2024-02", "b", 1, 0⟩,
     ⟨"db", "events", "2024-03", "c", 1, 0⟩]
    "events" "db" (30 * 86400 + 1) ["2024-01"] 43200 (fun _ => none)
    (fun _ => [([], 0)]) "TS" (some (.content []))
    (fun _ => rfl)).2.2

/-- If every poll before some point reports an active merge within the
timeout, and at that point a merge is still reported while the elapsed wait
exceeds `optimize_timeout`, the wait loop raises `TimeoutError`. -/
lemma wait_timedOut_decomp (t pid : String) (timeout : Int) :
    ∀ (pre : List (List MergeRow × Int)) (m : List MergeRow) (e : Int)
      (rest : List (List MergeRow × Int)),
      (∀ x ∈ pre, (check_active_merges x.1 t pid).isEmpty = false
        ∧ x.2 ≤ timeout) →
      (check_active_merges m t pid).isEmpty = false →
      e > timeout →
      (wait_for_merges_completion t pid timeout (pre ++ (m, e) :: rest)).1
        = WaitOutcome.timedOut
  | [], m, e, rest, _, hm, he => by
    simp [wait_for_merges_completion, hm, he]
  | (ms, el) :: pre, m, e, rest, hpre, hm, he => by
    have h0 := hpre (ms, el) (List.mem_cons_self _ _)
    have ih := wait_timedOut_decomp t pid timeout pre m e rest
      (fun x hx => hpre x (List.mem_cons_of_mem _ hx)) hm he
    have hel : ¬ (el > timeout) := by omega
    simp [wait_for_merges_completion, h0.1, hel, ih]

/-- The per-partition loop when every partition before `p` completes and `p`
times out: the loop visits exactly the earlier partitions and `p`, stops with
the timeout failure, and the checkpoint holds exactly the earlier
partitions' records. -/
lemma run_partitions_abort (t : String) (timeout : Int)
    (cmdErr : String → Option CmdError)
    (traces : String → List (List MergeRow × Int)) (ts : String)
    (p : PartitionInfo) (W₂ : List PartitionInfo)
    (hp : (optimize_partition false t p.partition_id timeout
        (cmdErr p.partition_id) (traces p.partition_id)).outcome
      = WaitOutcome.timedOut) :
    ∀ (W₁ : List PartitionInfo) (file : Option FileState),
      (∀ q ∈ W₁, (optimize_partition false t q.partition_id timeout
          (cmdErr q.partition_id) (traces q.partition_id)).outcome
        = WaitOutcome.completed) →
      (run_partitions false t timeout cmdErr traces ts file
          (W₁ ++ p :: W₂)).visited
          = W₁.map (fun q => q.partition_id) ++ [p.partition_id]
        ∧ (run_partitions false t timeout cmdErr traces ts file
            (W₁ ++ p :: W₂)).failure
          = some (p.partition_id, WaitOutcome.timedOut)
        ∧ (run_partitions false t timeout cmdErr traces ts file
            (W₁ ++ p :: W₂)).file
          = append_checkpoint_lines file (W₁.map fun q => q.partition_id) ts
  | [], file, _ => by
    simp [run_partitions, hp, append_checkpoint_lines]
  | q :: W₁, file, h => by
    have hq := h q (List.mem_cons_self _ _)
    have ih := run_partitions_abort t timeout cmdErr traces ts p W₂ hp W₁
      (save_partition_to_checkpoint file q.partition_id ts).file
      (fun r hr => h r (List.mem_cons_of_mem _ hr))
    simp only [List.cons_append, run_partitions, hq, if_pos rfl]
    exact ⟨by simp [ih.1], ih.2.1, by simp [ih.2.2, append_checkpoint_lines]⟩

/-- C4: when the elapsed wait for a partition exceeds `optimize_timeout`
while an active merge is still reported, `optimize_partition` ends in the
named `timedOut` outcome (a distinct constructor, not a generic failure),
the run aborts there — no later partition is attempted — the timed-out
partition is not recorded to the checkpoint, and the records of every
earlier partition of the run remain in the file. -/
theorem C4_timeout_named_outcome_aborts_run (parts : List PartRow)
    (t d : String) (now timeout : Int) (cmdErr : String → Option CmdError)
    (traces : String → List (List MergeRow × Int)) (ts : String)
    (ls : List String) (W₁ W₂ : List PartitionInfo) (p : PartitionInfo)
    (pre rest : List (List MergeRow × Int)) (m : List MergeRow) (e : Int)
    (hw : optimize_table_worklist parts t d now (parse_checkpoint ls)
      = W₁ ++ p :: W₂)
    (hW₁ : ∀ q ∈ W₁, (wait_for_merges_completion t q.partition_id timeout
        (traces q.partition_id)).1 = WaitOutcome.completed)
    (htr : traces p.partition_id = pre ++ (m, e) :: rest)
    (hpre : ∀ x ∈ pre, (check_active_merges x.1 t p.partition_id).isEmpty
        = false ∧ x.2 ≤ timeout)
    (hm : (check_active_merges m t p.partition_id).isEmpty = false)
    (he : e > timeout) :
    (optimize_partition false t p.partition_id timeout (cmdErr p.partition_id)
        (traces p.partition_id)).outcome = WaitOutcome.timedOut
    ∧ (optimize_table parts false t d now timeout cmdErr traces ts
          (some (.content ls))).report
        = RunReport.aborted p.partition_id WaitOutcome.timedOut
    ∧ (optimize_table parts false t d now timeout cmdErr traces ts
          (some (.content ls))).visited
        = W₁.map (fun q => q.partition_id) ++ [p.partition_id]
    ∧ (optimize_table parts false t d now timeout cmdErr traces ts
          (some (.content ls))).file
        = some (.content (ls
            ++ W₁.map fun q => checkpointLine q.partition_id ts)) := by
  have hload : (load_checkpoint (some (FileState.content ls))).completed
      = parse_checkpoint ls := rfl
  have hpo : (optimize_partition false t p.partition_id timeout
      (cmdErr p.partition_id) (traces p.partition_id)).outcome
      = WaitOutcome.timedOut := by
    show (wait_for_merges_completion t p.partition_id timeout
      (traces p.partition_id)).1 = WaitOutcome.timedOut
    rw [htr]
    exact wait_timedOut_decomp t p.partition_id timeout pre m e rest hpre hm he
  have hne : optimize_table_worklist parts t d now
      (load_checkpoint (some (FileState.content ls))).completed ≠ [] := by
    rw [hload, hw]
    simp
  have hrun := run_partitions_abort t timeout cmdErr traces ts p W₂ hpo W₁
    (some (.content ls))
    (fun q hq => by
      show (wait_for_merges_completion t q.partition_id timeout
        (traces q.partition_id)).1 = WaitOutcome.completed
      exact hW₁ q hq)
  refine ⟨hpo, ?_, ?_, ?_⟩ <;>
    rw [optimize_table_eq_run parts false t d now timeout cmdErr traces ts
      (some (.content ls)) hne] <;>
    simp only [hload, hw, hrun.2.1]
  · exact hrun.1
  · rw [hrun.2.2, append_checkpoint_lines_content, List.map_map]
    rfl

/-- Witness for C4: a one-partition table whose only poll reports an active
merge after 43201 s with a 43200 s timeout; the run aborts with the named
timeout outcome. -/
theorem C4_timeout_named_outcome_aborts_run_witness :
    (optimize_table [⟨"db", "events", "p1", "2024", 1, 0⟩] false "events"
        "db" (30 * 86400 + 1) 43200 (fun _ => none)
        (fun _ => [([⟨"db", "events", "p1", "2024", 0, 5⟩], 43201)]) "TS"
        (some (.content []))).report
      = RunReport.aborted "p1" WaitOutcome.timedOut :=
  (C4_timeout_named_outcome_aborts_run
    [⟨"db", "events", "p1", "2024", 1, 0⟩] "events" "db" (30 * 86400 + 1)
    43200 (fun _ => none)
    (fun _ => [([⟨"db", "events", "p1", "2024", 0, 5⟩], 43201)]) "TS" []
    [] [] ⟨"p1", "2024"⟩ [] [] [⟨"db", "events", "p1", "2024", 0, 5⟩] 43201
    (by decide) (by simp) rfl (by simp) (by decide) (by decide)).2.1

/-- C5: the spec claims a second `optimize_table` run (same data, checkpoint
file written by the first run) reports "all partitions already completed"
and issues zero compaction commands.  The code fails this: because
`load_checkpoint` keeps the `"  # completed at ..."` suffix on every loaded
line (see C1), the checkpoint filter matches nothing and the second run
re-issues the OPTIMIZE command for every partition.  Evaluated at a
one-partition table whose merges finish on the first poll. -/
theorem C5_second_run_not_idempotent :
    (optimize_table [⟨"production", "events", "p1", "2024", 1, 0⟩] false
        "events" "production" (30 * 86400 + 1) 43200 (fun _ => none)
        (fun _ => [([], 0)]) "2026-01-01 00:00:00"
        (some (.content []))).report = RunReport.finished 1 false
    ∧ (optimize_table [⟨"production", "events", "p1", "2024", 1, 0⟩] false
        "events" "production" (30 * 86400 + 1) 43200 (fun _ => none)
        (fun _ => [([], 0)]) "2026-01-01 00:00:00"
        (optimize_table [⟨"production", "events", "p1", "2024", 1, 0⟩] false
          "events" "production" (30 * 86400 + 1) 43200 (fun _ => none)
          (fun _ => [([], 0)]) "2026-01-01 00:00:00"
          (some (.content []))).file).executes = 1
    ∧ (optimize_table [⟨"production", "events", "p1", "2024", 1, 0⟩] false
        "events" "production" (30 * 86400 + 1) 43200 (fun _ => none)
        (fun _ => [([], 0)]) "2026-01-01 00:00:00"
        (optimize_table [⟨"production", "events", "p1", "2024", 1, 0⟩] false
          "events" "production" (30 * 86400 + 1) 43200 (fun _ => none)
          (fun _ => [([], 0)]) "2026-01-01 00:00:00"
          (some (.content []))).file).report ≠ RunReport.allCompleted := by
  decide

/-- C8: with `dry_run` true, a full `optimize_table` run executes zero
OPTIMIZE commands and zero merge-state polling queries, while still visiting
the full intended work list and reporting its length. -/
theorem C8_dry_run_no_commands_no_polls (parts : List PartRow) (t d : String)
    (now timeout : Int) (cmdErr : String → Option CmdError)
    (traces : String → List (List MergeRow × Int)) (ts : String)
    (file : Option FileState)
    (h : optimize_table_worklist parts t d now
        (load_checkpoint file).completed ≠ []) :
    (optimize_table parts true t d now timeout cmdErr traces ts file).executes
        = 0
    ∧ (optimize_table parts true t d now timeout cmdErr traces ts file).polls
        = 0
    ∧ (optimize_table parts true t d now timeout cmdErr traces ts
          file).visited
        = (optimize_table_worklist parts t d now
            (load_checkpoint file).completed).map (fun p => p.partition_id)
    ∧ (optimize_table parts true t d now timeout cmdErr traces ts file).report
        = RunReport.finished
            (optimize_table_worklist parts t d now
              (load_checkpoint file).completed).length true := by
  rw [optimize_table_eq_run parts true t d now timeout cmdErr traces ts file h]
  simp [run_partitions_dry]

/-- Witness for C8 at a concrete one-partition catalog. -/
theorem C8_dry_run_no_commands_no_polls_witness :
    (optimize_table [⟨"db", "events", "p1", "2024", 1, 0⟩] true "events" "db"
        (30 * 86400 + 1) 43200 (fun _ => none) (fun _ => [([], 0)]) "TS"
        (some (.content []))).executes = 0
    ∧ (optimize_table [⟨"db", "events", "p1", "2024", 1, 0⟩] true "events"
        "db" (30 * 86400 + 1) 43200 (fun _ => none) (fun _ => [([], 0)]) "TS"
        (some (.content []))).polls = 0 :=
  have h := C8_dry_run_no_commands_no_polls
    [⟨"db", "events", "p1", "2024", 1, 0⟩] "events" "db" (30 * 86400 + 1)
    43200 (fun _ => none) (fun _ => [([], 0)]) "TS" (some (.content []))
    (by decide)
  ⟨h.1, h.2.1⟩

/-- C9: with `dry_run` true and a checkpoint file configured, `optimize_table`
still appends a completion record for every partition of the work set, even
though no compaction command was issued. -/
theorem C9_dry_run_still_checkpoints (parts : List PartRow) (t d : String)
    (now timeout : Int) (cmdErr : String → Option CmdError)
    (traces : String → List (List MergeRow × Int)) (ts : String)
    (ls : List String) :
    (optimize_table parts true t d now timeout cmdErr traces ts
        (some (.content ls))).file
      = some (.content (ls
          ++ (optimize_table_worklist parts t d now
                (parse_checkpoint ls)).map
              fun p => checkpointLine p.partition_id ts)) := by
  by_cases h : optimize_table_worklist parts t d now (parse_checkpoint ls) = []
  · unfold optimize_table
    have hload : (load_checkpoint (some (.content ls))).completed
        = parse_checkpoint ls := rfl
    rw [hload, h]
    by_cases hp : (get_table_partitions parts t d now).isEmpty <;>
      simp [hp, h]
  · rw [optimize_table_eq_run parts true t d now timeout cmdErr traces ts
      (some (.content ls)) h]
    simp only [run_partitions_dry, append_checkpoint_lines_content,
      List.map_map]
    rfl

/-- C10: the partition-discovery query of `get_table_partitions` matches on
the table name only — membership is fully characterised without any
condition on `database` — whereas `get_recent_single_part_partitions`
restricts to both table and database; hence, at a state holding a same-named
table in another database, the returned partition list includes a partition
belonging to database `"staging"` while the configured database is
`"production"`. -/
theorem C10_discovery_ignores_database (parts : List PartRow) (t d : String)
    (now : Int) (p : String)
    (hp : p ∈ get_recent_single_part_partitions parts t d now) :
    (∀ x, x ∈ selectDistinctPartitions parts t ↔
        ∃ r ∈ parts, r.table = t ∧ r.active = 1
          ∧ PartitionInfo.mk r.partition_id r.partition = x)
    ∧ (∃ r ∈ parts, r.database = d ∧ r.table = t ∧ r.active = 1
        ∧ r.partition_id = p)
    ∧ (PartitionInfo.mk "p9" "2024-09"
        ∈ get_table_partitions [⟨"staging", "events", "p9", "2024-09", 1, 0⟩]
            "events" "production" 0
      ∧ (⟨"staging", "events", "p9", "2024-09", 1, 0⟩ : PartRow).database
          ≠ "production") := by
  refine ⟨mem_selectDistinctPartitions parts t, ?_, by decide⟩
  simp only [get_recent_single_part_partitions, List.mem_filter,
    List.mem_dedup, List.mem_map, Bool.and_eq_true, beq_iff_eq] at hp
  obtain ⟨⟨r, ⟨hr, hq⟩, hid⟩, -⟩ := hp
  exact ⟨r, hr, by tauto, by tauto, by tauto, hid⟩

/-- Witness for C10: a single-part partition of the configured table and
database modified within the window is an exclusion, and its source row
matches table, database and partition id. -/
theorem C10_discovery_ignores_database_witness :
    ∃ r ∈ [(⟨"production", "events", "p1", "2024", 1, 5⟩ : PartRow)],
      r.database = "production" ∧ r.table = "events" ∧ r.active = 1
        ∧ r.partition_id = "p1" :=
  (C10_discovery_ignores_database
    [⟨"production", "events", "p1", "2024", 1, 5⟩] "events" "production" 6
    "p1" (by decide)).2.1

end ClickhouseOptimizer
